import Mathlib

/-!
SDL2-Gamepad-Test: the `SDLGamepad` device session (`src/sdl_gamepad.h`).

A shallow embedding of the class `SDLGamepad` and of the three state records
it owns, followed by the properties of the polling model: double buffering,
axis normalisation, sensor and touchpad gating, capability gating of the
rumble commands and the fixed capability set.

Modelling conventions:

* The SDL library is the external capability provider.  Its answers for the
  opened controller are a record `Provider` of functions; one record is the
  provider's answers during one operation, so that a later operation can be
  given a record with different answers (the hardware changed).
* Every method of the class is a function from the session to the new
  session together with the list of provider calls it issued, in call order.
* `int` is `Int`, `Uint8`/`Uint16`/`Uint32` arguments are `Nat`, `Sint16` is
  `Int`.  No arithmetic of the class can overflow: the only arithmetic is the
  division of a `Sint16` by `SDL_JOYSTICK_AXIS_MAX`.
* `float` is `ℚ`.  The only floats the class computes are conversions of the
  `int` quotients `-1`, `0` and `1`, which are exact; every other float is
  copied unchanged from the provider.
* `std::vector` is `List`; a `resize` with a negative `int` throws, so the
  constructor, here `SDLGamepad.new`, returns an `Option`.
* Within one operation the provider answers a repeated query the same way
  (the constructor asks `SDL_GameControllerHasSensor` twice per sensor).
-/

/-- The sensor types `setSensor` can be given.  The enumeration is declared
in the SDL header `SDL_sensor.h`; the source names the last two constants. -/
inductive SDL_SensorType where
  | SDL_SENSOR_INVALID
  | SDL_SENSOR_UNKNOWN
  | SDL_SENSOR_ACCEL
  | SDL_SENSOR_GYRO
  deriving DecidableEq, Repr

/-- The buttons `pollState` queries.  The enumeration is declared in the SDL
header `SDL_gamecontroller.h`; these are the constants the source names. -/
inductive SDL_GameControllerButton where
  | SDL_CONTROLLER_BUTTON_A
  | SDL_CONTROLLER_BUTTON_B
  | SDL_CONTROLLER_BUTTON_X
  | SDL_CONTROLLER_BUTTON_Y
  | SDL_CONTROLLER_BUTTON_BACK
  | SDL_CONTROLLER_BUTTON_GUIDE
  | SDL_CONTROLLER_BUTTON_START
  | SDL_CONTROLLER_BUTTON_LEFTSTICK
  | SDL_CONTROLLER_BUTTON_RIGHTSTICK
  | SDL_CONTROLLER_BUTTON_LEFTSHOULDER
  | SDL_CONTROLLER_BUTTON_RIGHTSHOULDER
  | SDL_CONTROLLER_BUTTON_DPAD_UP
  | SDL_CONTROLLER_BUTTON_DPAD_DOWN
  | SDL_CONTROLLER_BUTTON_DPAD_LEFT
  | SDL_CONTROLLER_BUTTON_DPAD_RIGHT
  | SDL_CONTROLLER_BUTTON_MISC1
  | SDL_CONTROLLER_BUTTON_PADDLE1
  | SDL_CONTROLLER_BUTTON_PADDLE2
  | SDL_CONTROLLER_BUTTON_PADDLE3
  | SDL_CONTROLLER_BUTTON_PADDLE4
  | SDL_CONTROLLER_BUTTON_TOUCHPAD
  deriving DecidableEq, Repr

/-- The axes `pollState` queries.  The enumeration is declared in the SDL
header `SDL_gamecontroller.h`; these are the constants the source names. -/
inductive SDL_GameControllerAxis where
  | SDL_CONTROLLER_AXIS_LEFTX
  | SDL_CONTROLLER_AXIS_LEFTY
  | SDL_CONTROLLER_AXIS_RIGHTX
  | SDL_CONTROLLER_AXIS_RIGHTY
  | SDL_CONTROLLER_AXIS_TRIGGERLEFT
  | SDL_CONTROLLER_AXIS_TRIGGERRIGHT
  deriving DecidableEq, Repr

open SDL_SensorType SDL_GameControllerButton SDL_GameControllerAxis

/-- Modelled from the spec: the macro `SDL_JOYSTICK_AXIS_MAX`, which the SDL
header `SDL_joystick.h` defines and `src/` only uses, is the provider's
maximum raw magnitude of an axis, 32767.  The header writes it as the `int`
literal `32767`. -/
def SDL_JOYSTICK_AXIS_MAX : Int := 32767

/-- The member `LeftStick` / `RightStick` of `SDLGamepadState`. -/
structure StickAxis where
  x : ℚ := 0
  y : ℚ := 0
  deriving DecidableEq, Repr

/-- The record `SDLGamepadState` (lines 12-42). -/
structure SDLGamepadState where
  LeftStick : StickAxis := {}
  RightStick : StickAxis := {}
  A : Int := 0
  B : Int := 0
  X : Int := 0
  Y : Int := 0
  DPadUp : Int := 0
  DPadDown : Int := 0
  DPadLeft : Int := 0
  DPadRight : Int := 0
  LeftShoulder : Int := 0
  RightShoulder : Int := 0
  LeftStickClick : Int := 0
  RightStickClick : Int := 0
  Start : Int := 0
  Back : Int := 0
  Touchpad : Int := 0
  Guide : Int := 0
  Misc : Int := 0
  Paddle1 : Int := 0
  Paddle2 : Int := 0
  Paddle3 : Int := 0
  Paddle4 : Int := 0
  LeftTrigger : ℚ := 0
  RightTrigger : ℚ := 0

/-- A `float[3]` array: the three values of one motion sensor. -/
structure Float3 where
  v0 : ℚ := 0
  v1 : ℚ := 0
  v2 : ℚ := 0
  deriving DecidableEq, Repr

/-- The record `SDLGamepadSensorState` (lines 44-61). -/
structure SDLGamepadSensorState where
  Accelerometer : Float3 := {}
  Gyroscope : Float3 := {}
  deriving DecidableEq, Repr

/-- The record `SDLGamepadTouchpadFinger` (lines 63-68).  `vector::resize`
value-initialises new elements, so a fresh slot has `state = 0` too. -/
structure SDLGamepadTouchpadFinger where
  state : Nat := 0
  x : ℚ := 0
  y : ℚ := 0
  pressure : ℚ := 0
  deriving DecidableEq, Repr

/-- The record `SDLGamepadTouchpad` (lines 70-72). -/
structure SDLGamepadTouchpad where
  fingers : List SDLGamepadTouchpadFinger := []
  deriving DecidableEq, Repr

/-- The answers of the SDL library for the opened controller.  A query that
writes through out-pointers answers `none` when it fails and writes nothing,
and `some v` when it succeeds and writes `v`. -/
structure Provider where
  SDL_JoystickInstanceID : Int
  SDL_GameControllerName : String
  SDL_GameControllerGetSerial : String
  SDL_GameControllerRumble : Nat → Nat → Nat → Int
  SDL_GameControllerRumbleTriggers : Nat → Nat → Nat → Int
  SDL_GameControllerHasSensor : SDL_SensorType → Bool
  SDL_GameControllerGetNumTouchpads : Int
  SDL_GameControllerGetNumTouchpadFingers : Int → Int
  SDL_GameControllerGetTouchpadFinger : Int → Int → Option SDLGamepadTouchpadFinger
  SDL_GameControllerGetButton : SDL_GameControllerButton → Nat
  SDL_GameControllerGetAxis : SDL_GameControllerAxis → Int
  SDL_GameControllerGetSensorData : SDL_SensorType → Option Float3

/-- One call issued to the SDL library, with the arguments other than the
controller handle. -/
inductive SDLCall where
  | GameControllerOpen (index : Int)
  | GameControllerGetJoystick
  | JoystickInstanceID
  | GameControllerName
  | GameControllerGetSerial
  | GameControllerRumble (low high duration : Nat)
  | GameControllerRumbleTriggers (left right duration : Nat)
  | GameControllerHasSensor (type : SDL_SensorType)
  | GameControllerGetNumTouchpads
  | GameControllerGetNumTouchpadFingers (touchpad : Int)
  | GameControllerSetSensorEnabled (type : SDL_SensorType) (enabled : Bool)
  | GameControllerGetTouchpadFinger (touchpad finger : Int)
  | GameControllerGetButton (button : SDL_GameControllerButton)
  | GameControllerGetAxis (axis : SDL_GameControllerAxis)
  | GameControllerGetSensorData (type : SDL_SensorType)
  | GameControllerSetLED (red green blue : Nat)
  deriving DecidableEq, Repr

/-- The class `SDLGamepad` (lines 74-98): its data members, the controller
handle apart (the provider record stands for the opened controller). -/
structure SDLGamepad where
  name : String := ""
  serialNumber : String := ""
  touchpadCount : Int := 0
  hapticsSupported : Bool := false
  triggerHapticsSupported : Bool := false
  sensorSupported : Bool := false
  sensing : Bool := false
  gyroSupported : Bool := false
  gyroActive : Bool := false
  accelSupported : Bool := false
  accelActive : Bool := false
  touchpadSupported : Bool := false
  queryTouchpads : Bool := false
  sensorEnabled : Bool := false
  id : Int := 0
  last_state : SDLGamepadState := {}
  state : SDLGamepadState := {}
  last_sensor_state : SDLGamepadSensorState := {}
  sensor_state : SDLGamepadSensorState := {}
  touchpads : List SDLGamepadTouchpad := []

namespace SDLGamepad

/-- The call `v.resize(n)` of a vector of default-constructible elements, on
an empty vector, with an `int` argument: a negative `n` converts to a
`size_t` above `max_size()` and `resize` throws. -/
def resizeEmpty {α : Type} (dflt : α) (n : Int) : Option (List α) :=
  if n < 0 then none else some (List.replicate n.toNat dflt)

/-- The loop of lines 124-126 from surface `i` on: each surface of `pads`
gets `fingers.resize(SDL_GameControllerGetNumTouchpadFingers(controller, i))`. -/
def resizeFingers (p : Provider) : Nat → List SDLGamepadTouchpad →
    Option (List SDLGamepadTouchpad × List SDLCall)
  | _, [] => some ([], [])
  | i, _ :: rest =>
    match resizeEmpty ({} : SDLGamepadTouchpadFinger)
        (p.SDL_GameControllerGetNumTouchpadFingers i) with
    | none => none
    | some fingers =>
      match resizeFingers p (i + 1) rest with
      | none => none
      | some (pads, calls) =>
        some ({ fingers := fingers } :: pads,
          SDLCall.GameControllerGetNumTouchpadFingers i :: calls)

/-- The first part of the constructor (lines 101-120): the identity of the
controller, the two rumble probes, the sensor probes and the touchpad count. -/
def probeCapabilities (p : Provider) (index : Int) : SDLGamepad × List SDLCall :=
  let g : SDLGamepad := {}
  let g : SDLGamepad := { g with id := p.SDL_JoystickInstanceID }
  let g : SDLGamepad := { g with name := p.SDL_GameControllerName }
  let g : SDLGamepad := { g with serialNumber := p.SDL_GameControllerGetSerial }
  let calls := [SDLCall.GameControllerOpen index, SDLCall.GameControllerGetJoystick,
    SDLCall.JoystickInstanceID, SDLCall.GameControllerName, SDLCall.GameControllerGetSerial]
  let g : SDLGamepad := if p.SDL_GameControllerRumble 0 0 0 = 0 then
    { g with hapticsSupported := true } else g
  let calls := calls ++ [SDLCall.GameControllerRumble 0 0 0]
  let g : SDLGamepad := if p.SDL_GameControllerRumbleTriggers 0 0 0 = 0 then
    { g with triggerHapticsSupported := true } else g
  let calls := calls ++ [SDLCall.GameControllerRumbleTriggers 0 0 0]
  let hasAccel := p.SDL_GameControllerHasSensor SDL_SENSOR_ACCEL
  let hasGyro := p.SDL_GameControllerHasSensor SDL_SENSOR_GYRO
  let calls := calls ++ (if hasAccel then [SDLCall.GameControllerHasSensor SDL_SENSOR_ACCEL]
    else [SDLCall.GameControllerHasSensor SDL_SENSOR_ACCEL,
      SDLCall.GameControllerHasSensor SDL_SENSOR_GYRO])
  let g : SDLGamepad := if hasAccel || hasGyro then
      let g : SDLGamepad := { g with sensorSupported := true }
      let g : SDLGamepad := if hasAccel then { g with accelSupported := true } else g
      let g : SDLGamepad := if hasGyro then { g with gyroSupported := true } else g
      g
    else g
  let calls := calls ++ (if hasAccel || hasGyro then
    [SDLCall.GameControllerHasSensor SDL_SENSOR_ACCEL,
      SDLCall.GameControllerHasSensor SDL_SENSOR_GYRO] else [])
  let g : SDLGamepad := { g with touchpadCount := p.SDL_GameControllerGetNumTouchpads }
  let calls := calls ++ [SDLCall.GameControllerGetNumTouchpads]
  (g, calls)

/-- The constructor `SDLGamepad(int index)` (lines 100-128): the probes, then
the allocation of the touchpad buffers (lines 121-127).  The result is `none`
when a `resize` throws. -/
def new (p : Provider) (index : Int) : Option (SDLGamepad × List SDLCall) :=
  let r := probeCapabilities p index
  let g : SDLGamepad := r.1
  if g.touchpadCount ≠ 0 then
    let g : SDLGamepad := { g with touchpadSupported := true }
    match resizeEmpty ({} : SDLGamepadTouchpad) g.touchpadCount with
    | none => none
    | some pads =>
      match resizeFingers p 0 pads with
      | none => none
      | some (pads, fingerCalls) => some ({ g with touchpads := pads }, r.2 ++ fingerCalls)
  else some (g, r.2)

/-- The accessor `getName` (lines 134-136). -/
def getName (g : SDLGamepad) : String := g.name

/-- The accessor `getTouchpadCount` (lines 142-144). -/
def getTouchpadCount (g : SDLGamepad) : Int := g.touchpadCount

/-- The accessor `hasHaptics` (lines 146-148). -/
def hasHaptics (g : SDLGamepad) : Bool := g.hapticsSupported

/-- The accessor `hasTriggerHaptics` (lines 150-152). -/
def hasTriggerHaptics (g : SDLGamepad) : Bool := g.triggerHapticsSupported

/-- The accessor `hasSensors` (lines 154-156). -/
def hasSensors (g : SDLGamepad) : Bool := g.sensorSupported

/-- The accessor `hasAccelerometer` (lines 158-160). -/
def hasAccelerometer (g : SDLGamepad) : Bool := g.sensorSupported && g.accelSupported

/-- The accessor `hasGyroscope` (lines 162-164). -/
def hasGyroscope (g : SDLGamepad) : Bool := g.sensorSupported && g.gyroSupported

/-- The accessor `hasAllSensors` (lines 166-168). -/
def hasAllSensors (g : SDLGamepad) : Bool := g.hasAccelerometer && g.hasGyroscope

/-- The method `setSensor` (lines 170-179). -/
def setSensor (g : SDLGamepad) (type : SDL_SensorType) (active : Bool) :
    SDLGamepad × List SDLCall :=
  let g := if type = SDL_SENSOR_GYRO then { g with gyroActive := active } else g
  let g := if type = SDL_SENSOR_ACCEL then { g with accelActive := active } else g
  let g := { g with sensorEnabled := g.gyroActive || g.accelActive }
  (g, [SDLCall.GameControllerSetSensorEnabled type active])

/-- The method `setTouchpadSensing` (lines 181-185). -/
def setTouchpadSensing (g : SDLGamepad) (active : Bool) : SDLGamepad × List SDLCall :=
  if g.touchpadSupported then ({ g with queryTouchpads := active }, []) else (g, [])

/-- The inner loop of `pollTouchpad` (lines 190-196) from slot `finger` on:
every slot is overwritten with the provider's answer when the query succeeds. -/
def pollFingers (p : Provider) (index : Int) :
    Nat → List SDLGamepadTouchpadFinger → List SDLGamepadTouchpadFinger × List SDLCall
  | _, [] => ([], [])
  | finger, f :: rest =>
    let f2 := match p.SDL_GameControllerGetTouchpadFinger index finger with
      | some w => w
      | none => f
    let r := pollFingers p index (finger + 1) rest
    (f2 :: r.1, SDLCall.GameControllerGetTouchpadFinger index finger :: r.2)

/-- The outer loop of `pollTouchpad` (lines 189-197) from surface `index` on;
it runs while `index < touchpadCount`.  (The source indexes `touchpads[index]`
unchecked; here a surface beyond the vector is not visited.) -/
def pollSurfaces (p : Provider) (touchpadCount : Int) :
    Nat → List SDLGamepadTouchpad → List SDLGamepadTouchpad × List SDLCall
  | _, [] => ([], [])
  | index, t :: rest =>
    if (index : Int) < touchpadCount then
      let r := pollFingers p index 0 t.fingers
      let s := pollSurfaces p touchpadCount (index + 1) rest
      ({ fingers := r.1 } :: s.1, r.2 ++ s.2)
    else (t :: rest, [])

/-- The method `pollTouchpad` (lines 187-199). -/
def pollTouchpad (g : SDLGamepad) (p : Provider) : SDLGamepad × List SDLCall :=
  if g.queryTouchpads then
    let r := pollSurfaces p g.touchpadCount 0 g.touchpads
    ({ g with touchpads := r.1 }, r.2)
  else (g, [])

/-- The snapshot that lines 203 and 206-241 of `pollState` build: a fresh
`SDLGamepadState()` whose fields are then assigned, in this order, from the
provider.  `Sint16 / int` is the `int` division of C++, which truncates
towards zero; its quotient is then stored in a `float`. -/
def pollButtonsAndAxes (p : Provider) : SDLGamepadState :=
  { DPadUp := p.SDL_GameControllerGetButton SDL_CONTROLLER_BUTTON_DPAD_UP,
    DPadDown := p.SDL_GameControllerGetButton SDL_CONTROLLER_BUTTON_DPAD_DOWN,
    DPadLeft := p.SDL_GameControllerGetButton SDL_CONTROLLER_BUTTON_DPAD_LEFT,
    DPadRight := p.SDL_GameControllerGetButton SDL_CONTROLLER_BUTTON_DPAD_RIGHT,
    A := p.SDL_GameControllerGetButton SDL_CONTROLLER_BUTTON_A,
    B := p.SDL_GameControllerGetButton SDL_CONTROLLER_BUTTON_B,
    X := p.SDL_GameControllerGetButton SDL_CONTROLLER_BUTTON_X,
    Y := p.SDL_GameControllerGetButton SDL_CONTROLLER_BUTTON_Y,
    Start := p.SDL_GameControllerGetButton SDL_CONTROLLER_BUTTON_START,
    Back := p.SDL_GameControllerGetButton SDL_CONTROLLER_BUTTON_BACK,
    Guide := p.SDL_GameControllerGetButton SDL_CONTROLLER_BUTTON_GUIDE,
    LeftStickClick := p.SDL_GameControllerGetButton SDL_CONTROLLER_BUTTON_LEFTSTICK,
    RightStickClick := p.SDL_GameControllerGetButton SDL_CONTROLLER_BUTTON_RIGHTSTICK,
    Paddle1 := p.SDL_GameControllerGetButton SDL_CONTROLLER_BUTTON_PADDLE1,
    Paddle2 := p.SDL_GameControllerGetButton SDL_CONTROLLER_BUTTON_PADDLE2,
    Paddle3 := p.SDL_GameControllerGetButton SDL_CONTROLLER_BUTTON_PADDLE3,
    Paddle4 := p.SDL_GameControllerGetButton SDL_CONTROLLER_BUTTON_PADDLE4,
    Touchpad := p.SDL_GameControllerGetButton SDL_CONTROLLER_BUTTON_TOUCHPAD,
    Misc := p.SDL_GameControllerGetButton SDL_CONTROLLER_BUTTON_MISC1,
    LeftShoulder := p.SDL_GameControllerGetButton SDL_CONTROLLER_BUTTON_LEFTSHOULDER,
    RightShoulder := p.SDL_GameControllerGetButton SDL_CONTROLLER_BUTTON_RIGHTSHOULDER,
    LeftStick := {
      x := ((Int.tdiv (p.SDL_GameControllerGetAxis SDL_CONTROLLER_AXIS_LEFTX)
        SDL_JOYSTICK_AXIS_MAX : Int) : ℚ),
      y := ((Int.tdiv (p.SDL_GameControllerGetAxis SDL_CONTROLLER_AXIS_LEFTY)
        SDL_JOYSTICK_AXIS_MAX : Int) : ℚ) },
    RightStick := {
      x := ((Int.tdiv (p.SDL_GameControllerGetAxis SDL_CONTROLLER_AXIS_RIGHTX)
        SDL_JOYSTICK_AXIS_MAX : Int) : ℚ),
      y := ((Int.tdiv (p.SDL_GameControllerGetAxis SDL_CONTROLLER_AXIS_RIGHTY)
        SDL_JOYSTICK_AXIS_MAX : Int) : ℚ) },
    LeftTrigger := ((Int.tdiv (p.SDL_GameControllerGetAxis SDL_CONTROLLER_AXIS_TRIGGERLEFT)
        SDL_JOYSTICK_AXIS_MAX : Int) : ℚ),
    RightTrigger := ((Int.tdiv (p.SDL_GameControllerGetAxis SDL_CONTROLLER_AXIS_TRIGGERRIGHT)
        SDL_JOYSTICK_AXIS_MAX : Int) : ℚ) }

/-- The provider calls of lines 207-241 of `pollState`, in call order. -/
def pollButtonsAndAxesCalls : List SDLCall :=
  [SDLCall.GameControllerGetButton SDL_CONTROLLER_BUTTON_DPAD_UP,
   SDLCall.GameControllerGetButton SDL_CONTROLLER_BUTTON_DPAD_DOWN,
   SDLCall.GameControllerGetButton SDL_CONTROLLER_BUTTON_DPAD_LEFT,
   SDLCall.GameControllerGetButton SDL_CONTROLLER_BUTTON_DPAD_RIGHT,
   SDLCall.GameControllerGetButton SDL_CONTROLLER_BUTTON_A,
   SDLCall.GameControllerGetButton SDL_CONTROLLER_BUTTON_B,
   SDLCall.GameControllerGetButton SDL_CONTROLLER_BUTTON_X,
   SDLCall.GameControllerGetButton SDL_CONTROLLER_BUTTON_Y,
   SDLCall.GameControllerGetButton SDL_CONTROLLER_BUTTON_START,
   SDLCall.GameControllerGetButton SDL_CONTROLLER_BUTTON_BACK,
   SDLCall.GameControllerGetButton SDL_CONTROLLER_BUTTON_GUIDE,
   SDLCall.GameControllerGetButton SDL_CONTROLLER_BUTTON_LEFTSTICK,
   SDLCall.GameControllerGetButton SDL_CONTROLLER_BUTTON_RIGHTSTICK,
   SDLCall.GameControllerGetButton SDL_CONTROLLER_BUTTON_PADDLE1,
   SDLCall.GameControllerGetButton SDL_CONTROLLER_BUTTON_PADDLE2,
   SDLCall.GameControllerGetButton SDL_CONTROLLER_BUTTON_PADDLE3,
   SDLCall.GameControllerGetButton SDL_CONTROLLER_BUTTON_PADDLE4,
   SDLCall.GameControllerGetButton SDL_CONTROLLER_BUTTON_TOUCHPAD,
   SDLCall.GameControllerGetButton SDL_CONTROLLER_BUTTON_MISC1,
   SDLCall.GameControllerGetButton SDL_CONTROLLER_BUTTON_LEFTSHOULDER,
   SDLCall.GameControllerGetButton SDL_CONTROLLER_BUTTON_RIGHTSHOULDER,
   SDLCall.GameControllerGetAxis SDL_CONTROLLER_AXIS_LEFTX,
   SDLCall.GameControllerGetAxis SDL_CONTROLLER_AXIS_LEFTY,
   SDLCall.GameControllerGetAxis SDL_CONTROLLER_AXIS_RIGHTX,
   SDLCall.GameControllerGetAxis SDL_CONTROLLER_AXIS_RIGHTY,
   SDLCall.GameControllerGetAxis SDL_CONTROLLER_AXIS_TRIGGERLEFT,
   SDLCall.GameControllerGetAxis SDL_CONTROLLER_AXIS_TRIGGERRIGHT]

/-- The call `SDL_GameControllerGetSensorData(controller, type, array, 3)`:
on success the three values are written into `array`, on failure `array` is
left as it is. -/
def getSensorData (p : Provider) (type : SDL_SensorType) (array : Float3) : Float3 :=
  match p.SDL_GameControllerGetSensorData type with
  | some v => v
  | none => array

/-- The method `pollState` (lines 201-252). -/
def pollState (g : SDLGamepad) (p : Provider) : SDLGamepad × List SDLCall :=
  let g : SDLGamepad := { g with last_state := g.state }
  let g : SDLGamepad := { g with state := {} }
  let g : SDLGamepad := { g with last_sensor_state := g.sensor_state }
  let g : SDLGamepad := { g with sensor_state := {} }
  let g : SDLGamepad := { g with state := pollButtonsAndAxes p }
  let calls := pollButtonsAndAxesCalls
  let accel : Float3 × List SDLCall :=
    if g.sensorEnabled then
      if g.accelActive then
        (getSensorData p SDL_SENSOR_ACCEL g.sensor_state.Accelerometer,
          [SDLCall.GameControllerGetSensorData SDL_SENSOR_ACCEL])
      else (g.sensor_state.Accelerometer, [])
    else (g.sensor_state.Accelerometer, [])
  let gyro : Float3 × List SDLCall :=
    if g.sensorEnabled then
      if g.gyroActive then
        (getSensorData p SDL_SENSOR_GYRO g.sensor_state.Gyroscope,
          [SDLCall.GameControllerGetSensorData SDL_SENSOR_GYRO])
      else (g.sensor_state.Gyroscope, [])
    else (g.sensor_state.Gyroscope, [])
  let g : SDLGamepad :=
    { g with sensor_state := { Accelerometer := accel.1, Gyroscope := gyro.1 } }
  let r := pollTouchpad g p
  (r.1, calls ++ accel.2 ++ gyro.2 ++ r.2)

/-- The method `Rumble` (lines 254-258). -/
def Rumble (g : SDLGamepad) (left right duration : Nat) : SDLGamepad × List SDLCall :=
  if g.hapticsSupported then (g, [SDLCall.GameControllerRumble left right duration])
  else (g, [])

/-- The method `RumbleTriggers` (lines 260-264). -/
def RumbleTriggers (g : SDLGamepad) (left_trigger right_trigger duration : Nat) :
    SDLGamepad × List SDLCall :=
  if g.triggerHapticsSupported then
    (g, [SDLCall.GameControllerRumbleTriggers left_trigger right_trigger duration])
  else (g, [])

/-- The method `SetLED` (lines 266-268). -/
def SetLED (g : SDLGamepad) (r gr b : Nat) : SDLGamepad × List SDLCall :=
  (g, [SDLCall.GameControllerSetLED r gr b])

end SDLGamepad

/-- One call of a public mutating method of a session.  A poll carries the
answers the provider gives during that poll. -/
inductive Op where
  | setSensor (type : SDL_SensorType) (active : Bool)
  | setTouchpadSensing (active : Bool)
  | pollState (p : Provider)
  | Rumble (left right duration : Nat)
  | RumbleTriggers (left_trigger right_trigger duration : Nat)
  | SetLED (r g b : Nat)

/-- The effect of one method call on the session, and the provider calls it
issued. -/
def Op.apply (g : SDLGamepad) : Op → SDLGamepad × List SDLCall
  | Op.setSensor type active => g.setSensor type active
  | Op.setTouchpadSensing active => g.setTouchpadSensing active
  | Op.pollState p => g.pollState p
  | Op.Rumble l r d => g.Rumble l r d
  | Op.RumbleTriggers l r d => g.RumbleTriggers l r d
  | Op.SetLED r gr b => g.SetLED r gr b

/-- A sequence of method calls on a session, first call first: the final
session and all the provider calls issued, in order. -/
def runOps : SDLGamepad → List Op → SDLGamepad × List SDLCall
  | g, [] => (g, [])
  | g, op :: ops =>
    let r := Op.apply g op
    let s := runOps r.1 ops
    (s.1, r.2 ++ s.2)

/-- The sessions an application can hold: a constructed session, after any
sequence of method calls. -/
def Reachable (g : SDLGamepad) : Prop :=
  ∃ (p : Provider) (index : Int) (g0 : SDLGamepad) (calls : List SDLCall) (ops : List Op),
    SDLGamepad.new p index = some (g0, calls) ∧ (runOps g0 ops).1 = g

/-- Whether a provider call is the command `SDL_GameControllerRumble`. -/
def SDLCall.isRumble : SDLCall → Bool
  | SDLCall.GameControllerRumble _ _ _ => true
  | _ => false

/-- Whether a provider call is the command `SDL_GameControllerRumbleTriggers`. -/
def SDLCall.isRumbleTriggers : SDLCall → Bool
  | SDLCall.GameControllerRumbleTriggers _ _ _ => true
  | _ => false

/-- Whether a provider call is the query `SDL_GameControllerGetTouchpadFinger`. -/
def SDLCall.isTouchQuery : SDLCall → Bool
  | SDLCall.GameControllerGetTouchpadFinger _ _ => true
  | _ => false

/-- Whether a provider call is the query `SDL_GameControllerGetSensorData`. -/
def SDLCall.isSensorQuery : SDLCall → Bool
  | SDLCall.GameControllerGetSensorData _ => true
  | _ => false

/-- The number of `SDL_GameControllerRumble` calls in a list of provider calls. -/
def rumbleCount (calls : List SDLCall) : Nat := calls.countP SDLCall.isRumble

/-- The number of `SDL_GameControllerRumbleTriggers` calls in a list of
provider calls. -/
def rumbleTriggersCount (calls : List SDLCall) : Nat := calls.countP SDLCall.isRumbleTriggers

/-- The number of `SDL_GameControllerGetTouchpadFinger` queries in a list of
provider calls. -/
def touchQueryCount (calls : List SDLCall) : Nat := calls.countP SDLCall.isTouchQuery

/-- The number of `SDL_GameControllerGetSensorData` queries in a list of
provider calls. -/
def sensorQueryCount (calls : List SDLCall) : Nat := calls.countP SDLCall.isSensorQuery

/-! ## Concrete providers and sessions -/

/-- A provider for a controller at rest that supports neither rumble, nor
motion sensors, nor touchpads: every command and query fails or answers zero. -/
def idleProvider : Provider where
  SDL_JoystickInstanceID := 0
  SDL_GameControllerName := "pad"
  SDL_GameControllerGetSerial := ""
  SDL_GameControllerRumble := fun _ _ _ => -1
  SDL_GameControllerRumbleTriggers := fun _ _ _ => -1
  SDL_GameControllerHasSensor := fun _ => false
  SDL_GameControllerGetNumTouchpads := 0
  SDL_GameControllerGetNumTouchpadFingers := fun _ => 0
  SDL_GameControllerGetTouchpadFinger := fun _ _ => none
  SDL_GameControllerGetButton := fun _ => 0
  SDL_GameControllerGetAxis := fun _ => 0
  SDL_GameControllerGetSensorData := fun _ => none

/-- The idle provider with the buttons A, B, D-pad up and left shoulder held
down. -/
def fourButtonsProvider : Provider :=
  { idleProvider with
    SDL_GameControllerGetButton := fun b =>
      if b = SDL_CONTROLLER_BUTTON_A ∨ b = SDL_CONTROLLER_BUTTON_B ∨
          b = SDL_CONTROLLER_BUTTON_DPAD_UP ∨ b = SDL_CONTROLLER_BUTTON_LEFTSHOULDER
      then 1 else 0 }

/-- The idle provider with the left stick pushed fully right: raw axes
`(32767, 0)`. -/
def leftStickRightProvider : Provider :=
  { idleProvider with
    SDL_GameControllerGetAxis := fun a =>
      if a = SDL_CONTROLLER_AXIS_LEFTX then 32767 else 0 }

/-- The idle provider with the left stick pushed half way right: raw axes
`(16384, 0)`. -/
def leftStickHalfProvider : Provider :=
  { idleProvider with
    SDL_GameControllerGetAxis := fun a =>
      if a = SDL_CONTROLLER_AXIS_LEFTX then 16384 else 0 }

/-- The idle provider, now answering sensor-data queries: accelerometer
`[1, 2, 3]`, gyroscope `[4, 5, 6]`. -/
def sensorDataProvider : Provider :=
  { idleProvider with
    SDL_GameControllerGetSensorData := fun t =>
      if t = SDL_SENSOR_ACCEL then some { v0 := 1, v1 := 2, v2 := 3 }
      else if t = SDL_SENSOR_GYRO then some { v0 := 4, v1 := 5, v2 := 6 }
      else none }

/-- A provider for a controller with rumble and trigger rumble and two
touchpads, the first with one finger slot and the second with two; every
finger query answers a finger down at `(1/2, 1/4)` with pressure 1. -/
def touchProvider : Provider :=
  { idleProvider with
    SDL_GameControllerRumble := fun _ _ _ => 0
    SDL_GameControllerRumbleTriggers := fun _ _ _ => 0
    SDL_GameControllerGetNumTouchpads := 2
    SDL_GameControllerGetNumTouchpadFingers := fun i => if i = 0 then 1 else 2
    SDL_GameControllerGetTouchpadFinger := fun _ _ =>
      some { state := 1, x := 1 / 2, y := 1 / 4, pressure := 1 } }

/-- The touch provider after every finger was lifted. -/
def touchReleasedProvider : Provider :=
  { touchProvider with
    SDL_GameControllerGetTouchpadFinger := fun _ _ =>
      some { state := 0, x := 0, y := 0, pressure := 0 } }

/-- The session the constructor builds on the idle provider: no capability,
no touchpad, every flag off. -/
def plainPad : SDLGamepad := { name := "pad" }

/-- The session built on the touch provider, after touch sensing was enabled
and one poll recorded the fingers. -/
def touchedPad : SDLGamepad :=
  match SDLGamepad.new touchProvider 0 with
  | some (g, _) => (runOps g [Op.setTouchpadSensing true, Op.pollState touchProvider]).1
  | none => {}

/-- The relation between the private flags that the constructor establishes
and every method keeps: the composite sensor flag is the disjunction of the
two channel flags, and touchpads are queried only when there are some. -/
def SDLGamepad.Consistent (g : SDLGamepad) : Prop :=
  g.sensorEnabled = (g.gyroActive || g.accelActive) ∧
    (g.queryTouchpads = true → g.touchpadSupported = true)

/-! ## Lemmas on `pollState` -/

theorem SDLGamepad.pollState_state (g : SDLGamepad) (p : Provider) :
    (g.pollState p).1.state = SDLGamepad.pollButtonsAndAxes p := by
  unfold SDLGamepad.pollState SDLGamepad.pollTouchpad
  dsimp only
  split <;> rfl

theorem SDLGamepad.pollState_last_state (g : SDLGamepad) (p : Provider) :
    (g.pollState p).1.last_state = g.state := by
  unfold SDLGamepad.pollState SDLGamepad.pollTouchpad
  dsimp only
  split <;> rfl

theorem SDLGamepad.pollState_last_sensor_state (g : SDLGamepad) (p : Provider) :
    (g.pollState p).1.last_sensor_state = g.sensor_state := by
  unfold SDLGamepad.pollState SDLGamepad.pollTouchpad
  dsimp only
  split <;> rfl

theorem SDLGamepad.pollState_sensor_state (g : SDLGamepad) (p : Provider) :
    (g.pollState p).1.sensor_state =
      { Accelerometer :=
          if g.sensorEnabled = true ∧ g.accelActive = true then
            SDLGamepad.getSensorData p SDL_SENSOR_ACCEL {} else {},
        Gyroscope :=
          if g.sensorEnabled = true ∧ g.gyroActive = true then
            SDLGamepad.getSensorData p SDL_SENSOR_GYRO {} else {} } := by
  unfold SDLGamepad.pollState SDLGamepad.pollTouchpad
  dsimp only
  cases g.sensorEnabled <;> cases g.accelActive <;> cases g.gyroActive <;>
    cases g.queryTouchpads <;> simp

/-- A poll changes none of the private flags and counters of the session. -/
theorem SDLGamepad.pollState_flags (g : SDLGamepad) (p : Provider) :
    (g.pollState p).1.sensorEnabled = g.sensorEnabled ∧
    (g.pollState p).1.accelActive = g.accelActive ∧
    (g.pollState p).1.gyroActive = g.gyroActive ∧
    (g.pollState p).1.queryTouchpads = g.queryTouchpads ∧
    (g.pollState p).1.touchpadSupported = g.touchpadSupported ∧
    (g.pollState p).1.touchpadCount = g.touchpadCount ∧
    (g.pollState p).1.hapticsSupported = g.hapticsSupported ∧
    (g.pollState p).1.triggerHapticsSupported = g.triggerHapticsSupported ∧
    (g.pollState p).1.sensorSupported = g.sensorSupported ∧
    (g.pollState p).1.accelSupported = g.accelSupported ∧
    (g.pollState p).1.gyroSupported = g.gyroSupported := by
  unfold SDLGamepad.pollState SDLGamepad.pollTouchpad
  dsimp only
  split <;> exact ⟨rfl, rfl, rfl, rfl, rfl, rfl, rfl, rfl, rfl, rfl, rfl⟩

/-! ## Button mapping -/

/-- C8: after one `pollState` every button field of `state` is the provider's
answer for the button of the same name; so when exactly A, B, D-pad up and
left shoulder are pressed, `A`, `B`, `DPadUp` and `LeftShoulder` are 1 and
every other button field is 0. -/
theorem pollState_buttons (g : SDLGamepad) (p : Provider) :
    let s := (g.pollState p).1.state
    (s.A = p.SDL_GameControllerGetButton SDL_CONTROLLER_BUTTON_A ∧
     s.B = p.SDL_GameControllerGetButton SDL_CONTROLLER_BUTTON_B ∧
     s.X = p.SDL_GameControllerGetButton SDL_CONTROLLER_BUTTON_X ∧
     s.Y = p.SDL_GameControllerGetButton SDL_CONTROLLER_BUTTON_Y ∧
     s.DPadUp = p.SDL_GameControllerGetButton SDL_CONTROLLER_BUTTON_DPAD_UP ∧
     s.DPadDown = p.SDL_GameControllerGetButton SDL_CONTROLLER_BUTTON_DPAD_DOWN ∧
     s.DPadLeft = p.SDL_GameControllerGetButton SDL_CONTROLLER_BUTTON_DPAD_LEFT ∧
     s.DPadRight = p.SDL_GameControllerGetButton SDL_CONTROLLER_BUTTON_DPAD_RIGHT ∧
     s.LeftShoulder = p.SDL_GameControllerGetButton SDL_CONTROLLER_BUTTON_LEFTSHOULDER ∧
     s.RightShoulder = p.SDL_GameControllerGetButton SDL_CONTROLLER_BUTTON_RIGHTSHOULDER ∧
     s.LeftStickClick = p.SDL_GameControllerGetButton SDL_CONTROLLER_BUTTON_LEFTSTICK ∧
     s.RightStickClick = p.SDL_GameControllerGetButton SDL_CONTROLLER_BUTTON_RIGHTSTICK ∧
     s.Start = p.SDL_GameControllerGetButton SDL_CONTROLLER_BUTTON_START ∧
     s.Back = p.SDL_GameControllerGetButton SDL_CONTROLLER_BUTTON_BACK ∧
     s.Touchpad = p.SDL_GameControllerGetButton SDL_CONTROLLER_BUTTON_TOUCHPAD ∧
     s.Guide = p.SDL_GameControllerGetButton SDL_CONTROLLER_BUTTON_GUIDE ∧
     s.Misc = p.SDL_GameControllerGetButton SDL_CONTROLLER_BUTTON_MISC1 ∧
     s.Paddle1 = p.SDL_GameControllerGetButton SDL_CONTROLLER_BUTTON_PADDLE1 ∧
     s.Paddle2 = p.SDL_GameControllerGetButton SDL_CONTROLLER_BUTTON_PADDLE2 ∧
     s.Paddle3 = p.SDL_GameControllerGetButton SDL_CONTROLLER_BUTTON_PADDLE3 ∧
     s.Paddle4 = p.SDL_GameControllerGetButton SDL_CONTROLLER_BUTTON_PADDLE4) ∧
    ((∀ b, p.SDL_GameControllerGetButton b =
        if b = SDL_CONTROLLER_BUTTON_A ∨ b = SDL_CONTROLLER_BUTTON_B ∨
            b = SDL_CONTROLLER_BUTTON_DPAD_UP ∨ b = SDL_CONTROLLER_BUTTON_LEFTSHOULDER
        then 1 else 0) →
      s.A = 1 ∧ s.B = 1 ∧ s.DPadUp = 1 ∧ s.LeftShoulder = 1 ∧
      s.X = 0 ∧ s.Y = 0 ∧ s.DPadDown = 0 ∧ s.DPadLeft = 0 ∧ s.DPadRight = 0 ∧
      s.RightShoulder = 0 ∧ s.LeftStickClick = 0 ∧ s.RightStickClick = 0 ∧
      s.Start = 0 ∧ s.Back = 0 ∧ s.Touchpad = 0 ∧ s.Guide = 0 ∧ s.Misc = 0 ∧
      s.Paddle1 = 0 ∧ s.Paddle2 = 0 ∧ s.Paddle3 = 0 ∧ s.Paddle4 = 0) := by
  intro s
  have hs : s = SDLGamepad.pollButtonsAndAxes p := SDLGamepad.pollState_state g p
  rw [hs]
  refine ⟨by simp [SDLGamepad.pollButtonsAndAxes], fun h => ?_⟩
  simp [SDLGamepad.pollButtonsAndAxes, h]

/-- The scenario of C8 on a fresh session: with A, B, D-pad up and left
shoulder pressed, one poll sets exactly these four button fields. -/
theorem pollState_buttons_witness :
    let s := (({} : SDLGamepad).pollState fourButtonsProvider).1.state
    s.A = 1 ∧ s.B = 1 ∧ s.DPadUp = 1 ∧ s.LeftShoulder = 1 ∧
      s.X = 0 ∧ s.Y = 0 ∧ s.DPadDown = 0 ∧ s.DPadLeft = 0 ∧ s.DPadRight = 0 ∧
      s.RightShoulder = 0 ∧ s.LeftStickClick = 0 ∧ s.RightStickClick = 0 ∧
      s.Start = 0 ∧ s.Back = 0 ∧ s.Touchpad = 0 ∧ s.Guide = 0 ∧ s.Misc = 0 ∧
      s.Paddle1 = 0 ∧ s.Paddle2 = 0 ∧ s.Paddle3 = 0 ∧ s.Paddle4 = 0 :=
  (pollState_buttons {} fourButtonsProvider).2 (fun _ => rfl)

/-- The quotient `r / SDL_JOYSTICK_AXIS_MAX` of a `Sint16` value `r` takes
three values only: 1 at 32767, -1 at -32767 and -32768, and 0 elsewhere. -/
theorem axis_quotient (r : Int) (hlo : -32768 ≤ r) (hhi : r ≤ 32767) :
    Int.tdiv r SDL_JOYSTICK_AXIS_MAX =
      if r = 32767 then 1 else if r ≤ -32767 then -1 else 0 := by
  unfold SDL_JOYSTICK_AXIS_MAX
  by_cases h0 : 0 ≤ r
  · rw [Int.tdiv_eq_ediv h0 (by decide)]
    split_ifs <;> omega
  · have hr : r = -(-r) := by omega
    rw [hr, Int.neg_tdiv, Int.tdiv_eq_ediv (by omega) (by decide)]
    split_ifs <;> omega

/-! ## Axis normalisation -/


/-- C3: a raw axis value of 32767 is stored as exactly 1 in every stick
component and trigger, a raw value of -32768 as exactly -1 in every stick
component, and a raw value of 0 as exactly 0; so left-stick raw values
`(32767, 0)` give `LeftStick.x = 1` and `LeftStick.y = 0`. -/
theorem pollState_axis_extremes (g : SDLGamepad) (p : Provider) :
    let s := (g.pollState p).1.state
    ((p.SDL_GameControllerGetAxis SDL_CONTROLLER_AXIS_LEFTX = 32767 → s.LeftStick.x = 1) ∧
     (p.SDL_GameControllerGetAxis SDL_CONTROLLER_AXIS_LEFTY = 32767 → s.LeftStick.y = 1) ∧
     (p.SDL_GameControllerGetAxis SDL_CONTROLLER_AXIS_RIGHTX = 32767 → s.RightStick.x = 1) ∧
     (p.SDL_GameControllerGetAxis SDL_CONTROLLER_AXIS_RIGHTY = 32767 → s.RightStick.y = 1) ∧
     (p.SDL_GameControllerGetAxis SDL_CONTROLLER_AXIS_TRIGGERLEFT = 32767 →
        s.LeftTrigger = 1) ∧
     (p.SDL_GameControllerGetAxis SDL_CONTROLLER_AXIS_TRIGGERRIGHT = 32767 →
        s.RightTrigger = 1)) ∧
    ((p.SDL_GameControllerGetAxis SDL_CONTROLLER_AXIS_LEFTX = -32768 → s.LeftStick.x = -1) ∧
     (p.SDL_GameControllerGetAxis SDL_CONTROLLER_AXIS_LEFTY = -32768 → s.LeftStick.y = -1) ∧
     (p.SDL_GameControllerGetAxis SDL_CONTROLLER_AXIS_RIGHTX = -32768 →
        s.RightStick.x = -1) ∧
     (p.SDL_GameControllerGetAxis SDL_CONTROLLER_AXIS_RIGHTY = -32768 →
        s.RightStick.y = -1)) ∧
    ((p.SDL_GameControllerGetAxis SDL_CONTROLLER_AXIS_LEFTX = 0 → s.LeftStick.x = 0) ∧
     (p.SDL_GameControllerGetAxis SDL_CONTROLLER_AXIS_LEFTY = 0 → s.LeftStick.y = 0) ∧
     (p.SDL_GameControllerGetAxis SDL_CONTROLLER_AXIS_RIGHTX = 0 → s.RightStick.x = 0) ∧
     (p.SDL_GameControllerGetAxis SDL_CONTROLLER_AXIS_RIGHTY = 0 → s.RightStick.y = 0) ∧
     (p.SDL_GameControllerGetAxis SDL_CONTROLLER_AXIS_TRIGGERLEFT = 0 → s.LeftTrigger = 0) ∧
     (p.SDL_GameControllerGetAxis SDL_CONTROLLER_AXIS_TRIGGERRIGHT = 0 →
        s.RightTrigger = 0)) ∧
    (p.SDL_GameControllerGetAxis SDL_CONTROLLER_AXIS_LEFTX = 32767 →
      p.SDL_GameControllerGetAxis SDL_CONTROLLER_AXIS_LEFTY = 0 →
      s.LeftStick.x = 1 ∧ s.LeftStick.y = 0) := by
  intro s
  have hs : s = SDLGamepad.pollButtonsAndAxes p := SDLGamepad.pollState_state g p
  have h1 : Int.tdiv 32767 SDL_JOYSTICK_AXIS_MAX = 1 := by decide
  have h2 : Int.tdiv (-32768) SDL_JOYSTICK_AXIS_MAX = -1 := by decide
  have h3 : Int.tdiv 0 SDL_JOYSTICK_AXIS_MAX = 0 := by decide
  rw [hs]
  refine ⟨⟨?_, ?_, ?_, ?_, ?_, ?_⟩, ⟨?_, ?_, ?_, ?_⟩, ⟨?_, ?_, ?_, ?_, ?_, ?_⟩, ?_⟩
  all_goals first
    | (intro h h0; simp only [SDLGamepad.pollButtonsAndAxes, h, h0, h1, h3]; norm_num)
    | (intro h; simp only [SDLGamepad.pollButtonsAndAxes, h, h1, h2, h3]; norm_num)

/-- The scenario of C3 on a fresh session: left-stick raw values `(32767, 0)`
are stored as `(1, 0)`. -/
theorem pollState_axis_extremes_witness :
    let s := (({} : SDLGamepad).pollState leftStickRightProvider).1.state
    s.LeftStick.x = 1 ∧ s.LeftStick.y = 0 :=
  (pollState_axis_extremes {} leftStickRightProvider).2.2.2 rfl rfl

/-- C2 (failing input): a raw left-stick value of 16384, about half of the
range, is stored as 0 and not as the quotient 16384 / 32767; so are the raw
values 32766 and -32766 at the ends of the range short of the extremes. -/
theorem pollState_axis_truncates :
    (({} : SDLGamepad).pollState leftStickHalfProvider).1.state.LeftStick.x = 0 ∧
    ((({} : SDLGamepad).pollState leftStickHalfProvider).1.state.LeftStick.x ≠
      (16384 : ℚ) / 32767) ∧
    ((Int.tdiv 32766 SDL_JOYSTICK_AXIS_MAX : Int) : ℚ) = 0 ∧
    ((Int.tdiv (-32766) SDL_JOYSTICK_AXIS_MAX : Int) : ℚ) = 0 := by
  have hs := SDLGamepad.pollState_state {} leftStickHalfProvider
  have h1 : Int.tdiv 16384 SDL_JOYSTICK_AXIS_MAX = 0 := by decide
  have h2 : Int.tdiv 32766 SDL_JOYSTICK_AXIS_MAX = 0 := by decide
  have h3 : Int.tdiv (-32766) SDL_JOYSTICK_AXIS_MAX = 0 := by decide
  have hx : (({} : SDLGamepad).pollState leftStickHalfProvider).1.state.LeftStick.x = 0 := by
    rw [hs]
    simp only [SDLGamepad.pollButtonsAndAxes, leftStickHalfProvider, if_true, h1]
    norm_num
  refine ⟨hx, ?_, ?_, ?_⟩
  · rw [hx]; norm_num
  · rw [h2]; norm_num
  · rw [h3]; norm_num

/-! ## Double buffering -/

/-- C1: when the provider's button, axis, sensor and touch answers are the
same during two consecutive polls, both polls leave the same `state` and
`sensor_state`, and after the second poll `last_state` and
`last_sensor_state` are the `state` and `sensor_state` left by the first. -/
theorem pollState_twice (g : SDLGamepad) (p1 p2 : Provider)
    (hb : p2.SDL_GameControllerGetButton = p1.SDL_GameControllerGetButton)
    (ha : p2.SDL_GameControllerGetAxis = p1.SDL_GameControllerGetAxis)
    (hs : p2.SDL_GameControllerGetSensorData = p1.SDL_GameControllerGetSensorData)
    (_ht : p2.SDL_GameControllerGetTouchpadFinger = p1.SDL_GameControllerGetTouchpadFinger) :
    let g1 := (g.pollState p1).1
    let g2 := (g1.pollState p2).1
    g2.state = g1.state ∧ g2.sensor_state = g1.sensor_state ∧
      g2.last_state = g1.state ∧ g2.last_sensor_state = g1.sensor_state := by
  intro g1 g2
  refine ⟨?_, ?_, SDLGamepad.pollState_last_state g1 p2,
    SDLGamepad.pollState_last_sensor_state g1 p2⟩
  · show (g1.pollState p2).1.state = ((g.pollState p1).1).state
    rw [SDLGamepad.pollState_state, SDLGamepad.pollState_state]
    simp only [SDLGamepad.pollButtonsAndAxes, hb, ha]
  · show (g1.pollState p2).1.sensor_state = ((g.pollState p1).1).sensor_state
    rw [SDLGamepad.pollState_sensor_state, SDLGamepad.pollState_sensor_state]
    have hf := SDLGamepad.pollState_flags g p1
    simp only [SDLGamepad.getSensorData, hs, g1, hf.1, hf.2.1, hf.2.2.1]

/-- C1 on a fresh session polled twice with the left stick held right: both
polls leave `LeftStick.x = 1`, and the second poll's `last_state` has it too. -/
theorem pollState_twice_witness :
    let g1 := (({} : SDLGamepad).pollState leftStickRightProvider).1
    let g2 := (g1.pollState leftStickRightProvider).1
    g2.state = g1.state ∧ g2.sensor_state = g1.sensor_state ∧
      g2.last_state = g1.state ∧ g2.last_sensor_state = g1.sensor_state :=
  pollState_twice {} leftStickRightProvider leftStickRightProvider rfl rfl rfl rfl

/-- What the probes of the constructor leave in the session. -/
theorem SDLGamepad.probeCapabilities_fields (p : Provider) (index : Int) :
    let g := (SDLGamepad.probeCapabilities p index).1
    g.sensorEnabled = false ∧ g.gyroActive = false ∧ g.accelActive = false ∧
    g.queryTouchpads = false ∧ g.touchpadSupported = false ∧ g.touchpads = [] ∧
    g.hapticsSupported = decide (p.SDL_GameControllerRumble 0 0 0 = 0) ∧
    g.triggerHapticsSupported = decide (p.SDL_GameControllerRumbleTriggers 0 0 0 = 0) ∧
    g.touchpadCount = p.SDL_GameControllerGetNumTouchpads ∧
    g.hasAccelerometer = p.SDL_GameControllerHasSensor SDL_SENSOR_ACCEL ∧
    g.hasGyroscope = p.SDL_GameControllerHasSensor SDL_SENSOR_GYRO ∧
    g.hasSensors = (p.SDL_GameControllerHasSensor SDL_SENSOR_ACCEL ||
      p.SDL_GameControllerHasSensor SDL_SENSOR_GYRO) := by
  intro g
  by_cases hr : p.SDL_GameControllerRumble 0 0 0 = 0 <;>
  by_cases ht : p.SDL_GameControllerRumbleTriggers 0 0 0 = 0 <;>
  cases ha : p.SDL_GameControllerHasSensor SDL_SENSOR_ACCEL <;>
  cases hg : p.SDL_GameControllerHasSensor SDL_SENSOR_GYRO <;>
  simp [g, SDLGamepad.probeCapabilities, SDLGamepad.hasAccelerometer, SDLGamepad.hasGyroscope,
    SDLGamepad.hasSensors, hr, ht, ha, hg]

/-- A constructed session is the probed session with its touchpad buffers. -/
theorem SDLGamepad.new_eq (p : Provider) (index : Int) (g : SDLGamepad)
    (calls : List SDLCall) (h : SDLGamepad.new p index = some (g, calls)) :
    ∃ pads, g = { (SDLGamepad.probeCapabilities p index).1 with
      touchpadSupported := decide (p.SDL_GameControllerGetNumTouchpads ≠ 0),
      touchpads := pads } := by
  have hf := SDLGamepad.probeCapabilities_fields p index
  simp only at hf
  obtain ⟨-, -, -, -, hts, htp, -, -, hc, -⟩ := hf
  unfold SDLGamepad.new at h
  simp only [hc] at h
  by_cases hn : p.SDL_GameControllerGetNumTouchpads = 0
  · simp only [hn, ne_eq, not_true_eq_false, if_false, Option.some.injEq, Prod.mk.injEq] at h
    refine ⟨[], ?_⟩
    rw [← h.1]
    generalize SDLGamepad.probeCapabilities p index = r at hts htp
    obtain ⟨q, c⟩ := r
    cases q
    simp_all
  · simp only [hn, ne_eq, not_false_eq_true, if_true] at h
    split at h
    · exact absurd h (by simp)
    · split at h
      · exact absurd h (by simp)
      · rename_i pads2 _ _
        simp only [Option.some.injEq, Prod.mk.injEq] at h
        refine ⟨pads2, ?_⟩
        rw [← h.1]
        simp [hn, hc]

/-- What the constructor leaves in the private members of a new session. -/
theorem SDLGamepad.new_fields (p : Provider) (index : Int) (g : SDLGamepad)
    (calls : List SDLCall) (h : SDLGamepad.new p index = some (g, calls)) :
    g.sensorEnabled = false ∧ g.gyroActive = false ∧ g.accelActive = false ∧
    g.queryTouchpads = false ∧
    g.touchpadSupported = decide (p.SDL_GameControllerGetNumTouchpads ≠ 0) ∧
    g.hapticsSupported = decide (p.SDL_GameControllerRumble 0 0 0 = 0) ∧
    g.triggerHapticsSupported = decide (p.SDL_GameControllerRumbleTriggers 0 0 0 = 0) ∧
    g.touchpadCount = p.SDL_GameControllerGetNumTouchpads ∧
    g.hasAccelerometer = p.SDL_GameControllerHasSensor SDL_SENSOR_ACCEL ∧
    g.hasGyroscope = p.SDL_GameControllerHasSensor SDL_SENSOR_GYRO ∧
    g.hasSensors = (p.SDL_GameControllerHasSensor SDL_SENSOR_ACCEL ||
      p.SDL_GameControllerHasSensor SDL_SENSOR_GYRO) := by
  obtain ⟨pads, rfl⟩ := SDLGamepad.new_eq p index g calls h
  obtain ⟨h1, h2, h3, h4, -, -, h7, h8, h9, h10, h11, h12⟩ :=
    SDLGamepad.probeCapabilities_fields p index
  exact ⟨h1, h2, h3, h4, rfl, h7, h8, h9, h10, h11, h12⟩

/-- No method changes a capability member of the session. -/
theorem Op.apply_capabilities (g : SDLGamepad) (op : Op) :
    (Op.apply g op).1.hapticsSupported = g.hapticsSupported ∧
    (Op.apply g op).1.triggerHapticsSupported = g.triggerHapticsSupported ∧
    (Op.apply g op).1.sensorSupported = g.sensorSupported ∧
    (Op.apply g op).1.accelSupported = g.accelSupported ∧
    (Op.apply g op).1.gyroSupported = g.gyroSupported ∧
    (Op.apply g op).1.touchpadCount = g.touchpadCount ∧
    (Op.apply g op).1.touchpadSupported = g.touchpadSupported := by
  cases op with
  | setSensor type active =>
    simp only [Op.apply, SDLGamepad.setSensor]
    split <;> split <;> exact ⟨rfl, rfl, rfl, rfl, rfl, rfl, rfl⟩
  | setTouchpadSensing active =>
    simp only [Op.apply, SDLGamepad.setTouchpadSensing]
    split <;> exact ⟨rfl, rfl, rfl, rfl, rfl, rfl, rfl⟩
  | pollState p =>
    have h := SDLGamepad.pollState_flags g p
    exact ⟨h.2.2.2.2.2.2.1, h.2.2.2.2.2.2.2.1, h.2.2.2.2.2.2.2.2.1, h.2.2.2.2.2.2.2.2.2.1,
      h.2.2.2.2.2.2.2.2.2.2, h.2.2.2.2.2.1, h.2.2.2.2.1⟩
  | Rumble l r d =>
    simp only [Op.apply, SDLGamepad.Rumble]
    split <;> exact ⟨rfl, rfl, rfl, rfl, rfl, rfl, rfl⟩
  | RumbleTriggers l r d =>
    simp only [Op.apply, SDLGamepad.RumbleTriggers]
    split <;> exact ⟨rfl, rfl, rfl, rfl, rfl, rfl, rfl⟩
  | SetLED r gr b => exact ⟨rfl, rfl, rfl, rfl, rfl, rfl, rfl⟩

/-- No sequence of method calls changes a capability member of the session. -/
theorem runOps_capabilities (ops : List Op) (g : SDLGamepad) :
    (runOps g ops).1.hapticsSupported = g.hapticsSupported ∧
    (runOps g ops).1.triggerHapticsSupported = g.triggerHapticsSupported ∧
    (runOps g ops).1.sensorSupported = g.sensorSupported ∧
    (runOps g ops).1.accelSupported = g.accelSupported ∧
    (runOps g ops).1.gyroSupported = g.gyroSupported ∧
    (runOps g ops).1.touchpadCount = g.touchpadCount ∧
    (runOps g ops).1.touchpadSupported = g.touchpadSupported := by
  induction ops generalizing g with
  | nil => exact ⟨rfl, rfl, rfl, rfl, rfl, rfl, rfl⟩
  | cons op ops ih =>
    obtain ⟨a1, a2, a3, a4, a5, a6, a7⟩ := Op.apply_capabilities g op
    obtain ⟨b1, b2, b3, b4, b5, b6, b7⟩ := ih (Op.apply g op).1
    simp only [runOps]
    exact ⟨b1.trans a1, b2.trans a2, b3.trans a3, b4.trans a4, b5.trans a5, b6.trans a6,
      b7.trans a7⟩

/-- Every method keeps the flags of the session consistent. -/
theorem Op.apply_consistent (g : SDLGamepad) (op : Op) (h : g.Consistent) :
    (Op.apply g op).1.Consistent := by
  obtain ⟨h1, h2⟩ := h
  cases op with
  | setSensor type active =>
    unfold Op.apply SDLGamepad.setSensor SDLGamepad.Consistent
    dsimp only
    split <;> split <;> exact ⟨rfl, h2⟩
  | setTouchpadSensing active =>
    simp only [Op.apply, SDLGamepad.setTouchpadSensing, SDLGamepad.Consistent]
    split
    · rename_i hs
      exact ⟨h1, fun _ => hs⟩
    · exact ⟨h1, h2⟩
  | pollState p =>
    obtain ⟨f1, f2, f3, f4, f5, -⟩ := SDLGamepad.pollState_flags g p
    simp only [Op.apply, SDLGamepad.Consistent, f1, f2, f3, f4, f5]
    exact ⟨h1, h2⟩
  | Rumble l r d =>
    simp only [Op.apply, SDLGamepad.Rumble]
    split <;> exact ⟨h1, h2⟩
  | RumbleTriggers l r d =>
    simp only [Op.apply, SDLGamepad.RumbleTriggers]
    split <;> exact ⟨h1, h2⟩
  | SetLED r gr b => exact ⟨h1, h2⟩

/-- Every sequence of method calls keeps the flags of the session consistent. -/
theorem runOps_consistent (ops : List Op) (g : SDLGamepad) (h : g.Consistent) :
    (runOps g ops).1.Consistent := by
  induction ops generalizing g with
  | nil => exact h
  | cons op ops ih => exact ih _ (Op.apply_consistent g op h)

/-- The flags of every reachable session are consistent. -/
theorem Reachable.consistent {g : SDLGamepad} (h : Reachable g) : g.Consistent := by
  obtain ⟨p, index, g0, calls, ops, hnew, rfl⟩ := h
  apply runOps_consistent
  obtain ⟨h1, h2, h3, h4, -⟩ := SDLGamepad.new_fields p index g0 calls hnew
  refine ⟨?_, ?_⟩
  · rw [h1, h2, h3]; rfl
  · rw [h4]; intro hq; exact absurd hq (by simp)

/-- The effect of `setSensor` on the three sensor flags. -/
theorem SDLGamepad.setSensor_flags (g : SDLGamepad) (type : SDL_SensorType) (active : Bool) :
    (g.setSensor type active).1.accelActive =
      (if type = SDL_SENSOR_ACCEL then active else g.accelActive) ∧
    (g.setSensor type active).1.gyroActive =
      (if type = SDL_SENSOR_GYRO then active else g.gyroActive) ∧
    (g.setSensor type active).1.sensorEnabled =
      ((g.setSensor type active).1.gyroActive || (g.setSensor type active).1.accelActive) := by
  unfold SDLGamepad.setSensor
  dsimp only
  cases type <;> simp

/-- The sensor snapshot a poll leaves on a session with consistent flags. -/
theorem SDLGamepad.pollState_sensor_of_consistent (g : SDLGamepad) (p : Provider)
    (h : g.Consistent) :
    (g.pollState p).1.sensor_state =
      { Accelerometer :=
          if g.accelActive = true then SDLGamepad.getSensorData p SDL_SENSOR_ACCEL {} else {},
        Gyroscope :=
          if g.gyroActive = true then SDLGamepad.getSensorData p SDL_SENSOR_GYRO {} else {} } := by
  rw [SDLGamepad.pollState_sensor_state, h.1]
  cases g.accelActive <;> cases g.gyroActive <;> simp

/-! ## Motion sensors -/

/-- C4 (counterexample): the session built on a controller without sensors
has no accelerometer, yet after `setSensor(SDL_SENSOR_ACCEL, true)` a poll
queries the provider and stores its answer `[1, 2, 3]` in
`sensor_state.Accelerometer`. -/
theorem unsupported_sensor_is_polled :
    (SDLGamepad.new idleProvider 0).map Prod.fst = some plainPad ∧
    plainPad.hasAccelerometer = false ∧
    ((plainPad.setSensor SDL_SENSOR_ACCEL true).1.pollState
        sensorDataProvider).1.sensor_state.Accelerometer = { v0 := 1, v1 := 2, v2 := 3 } ∧
    ((plainPad.setSensor SDL_SENSOR_ACCEL true).1.pollState
        sensorDataProvider).1.sensor_state.Accelerometer ≠ {} := by
  refine ⟨rfl, rfl, rfl, ?_⟩
  have h : ((plainPad.setSensor SDL_SENSOR_ACCEL true).1.pollState
      sensorDataProvider).1.sensor_state.Accelerometer = { v0 := 1, v1 := 2, v2 := 3 } := rfl
  rw [h]
  intro hc
  have h0 := congrArg Float3.v0 hc
  norm_num at h0

/-- C4 (amended): on every reachable session, after any sequence of
`setSensor` calls a poll leaves a sensor array at `[0, 0, 0]` when the flag
of its channel is off, and leaves in it what the provider's sensor-data query
writes over `[0, 0, 0]` when the flag is on; the flag of a channel is the
`active` argument of the last `setSensor` call for its type, and hardware
support, which no `setSensor` call changes, does not gate the query. -/
theorem sensor_polled_iff_enabled (g : SDLGamepad) (hg : Reachable g)
    (cs : List (SDL_SensorType × Bool)) (p : Provider) :
    let g1 := (runOps g (cs.map fun c => Op.setSensor c.1 c.2)).1
    let s := (g1.pollState p).1.sensor_state
    (g1.accelActive = false → s.Accelerometer = {}) ∧
    (g1.gyroActive = false → s.Gyroscope = {}) ∧
    (g1.accelActive = true →
      s.Accelerometer = SDLGamepad.getSensorData p SDL_SENSOR_ACCEL {}) ∧
    (g1.gyroActive = true →
      s.Gyroscope = SDLGamepad.getSensorData p SDL_SENSOR_GYRO {}) ∧
    g1.hasAccelerometer = g.hasAccelerometer ∧ g1.hasGyroscope = g.hasGyroscope ∧
    (∀ (h : SDLGamepad) (type : SDL_SensorType) (active : Bool),
      (h.setSensor type active).1.accelActive =
        (if type = SDL_SENSOR_ACCEL then active else h.accelActive) ∧
      (h.setSensor type active).1.gyroActive =
        (if type = SDL_SENSOR_GYRO then active else h.gyroActive)) := by
  intro g1 s
  have hc : g1.Consistent := runOps_consistent _ g hg.consistent
  have hs : s = _ := SDLGamepad.pollState_sensor_of_consistent g1 p hc
  obtain ⟨-, -, c3, c4, c5, -⟩ := runOps_capabilities (cs.map fun c => Op.setSensor c.1 c.2) g
  refine ⟨?_, ?_, ?_, ?_, ?_, ?_, ?_⟩
  · intro h; rw [hs]; simp [h]
  · intro h; rw [hs]; simp [h]
  · intro h; rw [hs]; simp [h]
  · intro h; rw [hs]; simp [h]
  · show (g1.sensorSupported && g1.accelSupported) = (g.sensorSupported && g.accelSupported)
    rw [c3, c4]
  · show (g1.sensorSupported && g1.gyroSupported) = (g.sensorSupported && g.gyroSupported)
    rw [c3, c5]
  · intro h type active
    exact ⟨(SDLGamepad.setSensor_flags h type active).1,
      (SDLGamepad.setSensor_flags h type active).2.1⟩

/-- C4 (amended) on the session without sensors: after
`setSensor(SDL_SENSOR_ACCEL, true)` a poll stores the provider's accelerometer
answer and leaves the gyroscope array at `[0, 0, 0]`. -/
theorem sensor_polled_iff_enabled_witness :
    Reachable plainPad ∧
    ((runOps plainPad [Op.setSensor SDL_SENSOR_ACCEL true]).1.pollState
        sensorDataProvider).1.sensor_state.Accelerometer =
      SDLGamepad.getSensorData sensorDataProvider SDL_SENSOR_ACCEL {} ∧
    ((runOps plainPad [Op.setSensor SDL_SENSOR_ACCEL true]).1.pollState
        sensorDataProvider).1.sensor_state.Gyroscope = {} :=
  ⟨⟨idleProvider, 0, _, _, [], rfl, rfl⟩,
   (sensor_polled_iff_enabled plainPad ⟨idleProvider, 0, _, _, [], rfl, rfl⟩
      [(SDL_SENSOR_ACCEL, true)] sensorDataProvider).2.2.1 rfl,
   (sensor_polled_iff_enabled plainPad ⟨idleProvider, 0, _, _, [], rfl, rfl⟩
      [(SDL_SENSOR_ACCEL, true)] sensorDataProvider).2.1 rfl⟩

/-- C5: whatever `sensor_state` holds and whatever the provider answers, a
poll after `setSensor` disabled both the accelerometer and the gyroscope (in
either order) leaves both arrays at `[0, 0, 0]`; and a poll leaves the array
of a channel whose flag is off at `[0, 0, 0]`, whether the other channel is
enabled or not. -/
theorem disabled_sensor_polls_zero (g : SDLGamepad) (p : Provider) :
    (((g.setSensor SDL_SENSOR_ACCEL false).1.setSensor SDL_SENSOR_GYRO false).1.pollState
        p).1.sensor_state = {} ∧
    (((g.setSensor SDL_SENSOR_GYRO false).1.setSensor SDL_SENSOR_ACCEL false).1.pollState
        p).1.sensor_state = {} ∧
    (g.accelActive = false → (g.pollState p).1.sensor_state.Accelerometer = {}) ∧
    (g.gyroActive = false → (g.pollState p).1.sensor_state.Gyroscope = {}) ∧
    (∀ other : Bool,
      (((g.setSensor SDL_SENSOR_ACCEL false).1.setSensor SDL_SENSOR_GYRO other).1.pollState
          p).1.sensor_state.Accelerometer = {} ∧
      (((g.setSensor SDL_SENSOR_GYRO false).1.setSensor SDL_SENSOR_ACCEL other).1.pollState
          p).1.sensor_state.Gyroscope = {}) := by
  have key : ∀ h : SDLGamepad,
      (h.accelActive = false → (h.pollState p).1.sensor_state.Accelerometer = {}) ∧
      (h.gyroActive = false → (h.pollState p).1.sensor_state.Gyroscope = {}) := by
    intro h
    rw [SDLGamepad.pollState_sensor_state]
    constructor <;> intro hf <;> simp [hf]
  refine ⟨?_, ?_, (key g).1, (key g).2, fun other => ⟨?_, ?_⟩⟩
  · rw [SDLGamepad.pollState_sensor_state]
    simp [SDLGamepad.setSensor]
  · rw [SDLGamepad.pollState_sensor_state]
    simp [SDLGamepad.setSensor]
  · apply (key _).1
    simp [SDLGamepad.setSensor]
  · apply (key _).2
    simp [SDLGamepad.setSensor]

/-- C5 on a session whose accelerometer channel is off and whose
`sensor_state` holds old values: a poll with a provider that answers
`[1, 2, 3]` leaves the accelerometer array at `[0, 0, 0]`. -/
theorem disabled_sensor_polls_zero_witness :
    (({ plainPad with
          gyroActive := true, sensorEnabled := true,
          sensor_state := { Accelerometer := { v0 := 7, v1 := 8, v2 := 9 } } } :
        SDLGamepad).pollState sensorDataProvider).1.sensor_state.Accelerometer = {} :=
  (disabled_sensor_polls_zero
    { plainPad with
      gyroActive := true, sensorEnabled := true,
      sensor_state := { Accelerometer := { v0 := 7, v1 := 8, v2 := 9 } } }
    sensorDataProvider).2.2.1 rfl

/-- The provider calls of the button and axis part of a poll hold no rumble
command, no trigger-rumble command and no touchpad query. -/
theorem SDLGamepad.pollButtonsAndAxesCalls_counts :
    rumbleCount SDLGamepad.pollButtonsAndAxesCalls = 0 ∧
    rumbleTriggersCount SDLGamepad.pollButtonsAndAxesCalls = 0 ∧
    touchQueryCount SDLGamepad.pollButtonsAndAxesCalls = 0 := by
  refine ⟨rfl, rfl, rfl⟩

/-- The finger loop issues touchpad queries only. -/
theorem SDLGamepad.pollFingers_counts (p : Provider) (index : Int) (finger : Nat)
    (fingers : List SDLGamepadTouchpadFinger) :
    rumbleCount (SDLGamepad.pollFingers p index finger fingers).2 = 0 ∧
    rumbleTriggersCount (SDLGamepad.pollFingers p index finger fingers).2 = 0 := by
  induction fingers generalizing finger with
  | nil => exact ⟨rfl, rfl⟩
  | cons f rest ih =>
    obtain ⟨h1, h2⟩ := ih (finger + 1)
    simp only [rumbleCount, rumbleTriggersCount] at h1 h2 ⊢
    simp [SDLGamepad.pollFingers, List.countP_cons, SDLCall.isRumble, SDLCall.isRumbleTriggers,
      h1, h2]

/-- The surface loop issues touchpad queries only. -/
theorem SDLGamepad.pollSurfaces_counts (p : Provider) (touchpadCount : Int) (index : Nat)
    (pads : List SDLGamepadTouchpad) :
    rumbleCount (SDLGamepad.pollSurfaces p touchpadCount index pads).2 = 0 ∧
    rumbleTriggersCount (SDLGamepad.pollSurfaces p touchpadCount index pads).2 = 0 := by
  induction pads generalizing index with
  | nil => exact ⟨rfl, rfl⟩
  | cons t rest ih =>
    obtain ⟨h1, h2⟩ := ih (index + 1)
    obtain ⟨k1, k2⟩ := SDLGamepad.pollFingers_counts p index 0 t.fingers
    simp only [rumbleCount, rumbleTriggersCount] at h1 h2 k1 k2 ⊢
    simp only [SDLGamepad.pollSurfaces]
    split
    · simp [List.countP_append, h1, h2, k1, k2]
    · simp

/-- A poll issues no rumble and no trigger-rumble command. -/
theorem SDLGamepad.pollState_counts (g : SDLGamepad) (p : Provider) :
    rumbleCount (g.pollState p).2 = 0 ∧ rumbleTriggersCount (g.pollState p).2 = 0 := by
  obtain ⟨b1, b2, -⟩ := SDLGamepad.pollButtonsAndAxesCalls_counts
  have hs := SDLGamepad.pollSurfaces_counts p g.touchpadCount 0 g.touchpads
  simp only [rumbleCount, rumbleTriggersCount] at b1 b2 hs ⊢
  unfold SDLGamepad.pollState SDLGamepad.pollTouchpad
  dsimp only
  cases g.sensorEnabled <;> cases g.accelActive <;> cases g.gyroActive <;>
    cases g.queryTouchpads <;>
    simp [List.countP_append, List.countP_cons, SDLCall.isRumble, SDLCall.isRumbleTriggers,
      b1, b2, hs]

/-- The counts of rumble commands of a sequence of calls add up. -/
theorem runOps_cons_counts (g : SDLGamepad) (op : Op) (ops : List Op) :
    rumbleCount (runOps g (op :: ops)).2 =
      rumbleCount (Op.apply g op).2 + rumbleCount (runOps (Op.apply g op).1 ops).2 ∧
    rumbleTriggersCount (runOps g (op :: ops)).2 =
      rumbleTriggersCount (Op.apply g op).2 +
        rumbleTriggersCount (runOps (Op.apply g op).1 ops).2 := by
  simp [runOps, rumbleCount, rumbleTriggersCount, List.countP_append]

/-- On a session without rumble support no method issues a rumble command,
and likewise for trigger rumble. -/
theorem Op.apply_counts (g : SDLGamepad) (op : Op) :
    (g.hapticsSupported = false → rumbleCount (Op.apply g op).2 = 0) ∧
    (g.triggerHapticsSupported = false → rumbleTriggersCount (Op.apply g op).2 = 0) := by
  cases op with
  | pollState p => exact ⟨fun _ => (SDLGamepad.pollState_counts g p).1,
      fun _ => (SDLGamepad.pollState_counts g p).2⟩
  | setSensor type active => exact ⟨fun _ => rfl, fun _ => rfl⟩
  | setTouchpadSensing active =>
    simp only [Op.apply, SDLGamepad.setTouchpadSensing]
    split <;> exact ⟨fun _ => rfl, fun _ => rfl⟩
  | Rumble l r d =>
    simp only [Op.apply, SDLGamepad.Rumble]
    constructor
    · intro h; simp [h, rumbleCount]
    · intro _; split <;> rfl
  | RumbleTriggers l r d =>
    simp only [Op.apply, SDLGamepad.RumbleTriggers]
    constructor
    · intro _; split <;> rfl
    · intro h; simp [h, rumbleTriggersCount]
  | SetLED r gr b => exact ⟨fun _ => rfl, fun _ => rfl⟩

/-- On a session without rumble support no sequence of method calls issues a
rumble command, and likewise for trigger rumble. -/
theorem runOps_counts (ops : List Op) (g : SDLGamepad) :
    (g.hapticsSupported = false → rumbleCount (runOps g ops).2 = 0) ∧
    (g.triggerHapticsSupported = false → rumbleTriggersCount (runOps g ops).2 = 0) := by
  induction ops generalizing g with
  | nil => exact ⟨fun _ => rfl, fun _ => rfl⟩
  | cons op ops ih =>
    obtain ⟨c1, c2, -⟩ := Op.apply_capabilities g op
    obtain ⟨a1, a2⟩ := Op.apply_counts g op
    obtain ⟨i1, i2⟩ := ih (Op.apply g op).1
    obtain ⟨r1, r2⟩ := runOps_cons_counts g op ops
    constructor
    · intro h
      rw [r1, a1 h, i1 (c1.trans h)]
    · intro h
      rw [r2, a2 h, i2 (c2.trans h)]

/-! ## Rumble commands -/

/-- C7: on a session whose `hasHaptics()` is false, `Rumble` issues no
provider call for any arguments and no sequence of method calls issues a
provider rumble command; when `hasHaptics()` is true, `Rumble` issues exactly
one `SDL_GameControllerRumble` call with the same three arguments.  The same
holds of `RumbleTriggers` and `hasTriggerHaptics()`.  The session is never
changed, and after construction each flag is true exactly when the
zero-magnitude probe of the constructor returned 0. -/
theorem rumble_gated_by_capability (g : SDLGamepad) (left right duration : Nat) :
    (g.hasHaptics = false →
      g.Rumble left right duration = (g, []) ∧
      ∀ ops : List Op, rumbleCount (runOps g ops).2 = 0) ∧
    (g.hasHaptics = true →
      g.Rumble left right duration =
        (g, [SDLCall.GameControllerRumble left right duration])) ∧
    (g.hasTriggerHaptics = false →
      g.RumbleTriggers left right duration = (g, []) ∧
      ∀ ops : List Op, rumbleTriggersCount (runOps g ops).2 = 0) ∧
    (g.hasTriggerHaptics = true →
      g.RumbleTriggers left right duration =
        (g, [SDLCall.GameControllerRumbleTriggers left right duration])) ∧
    (∀ (p : Provider) (index : Int) (g0 : SDLGamepad) (calls : List SDLCall),
      SDLGamepad.new p index = some (g0, calls) →
      g0.hasHaptics = decide (p.SDL_GameControllerRumble 0 0 0 = 0) ∧
      g0.hasTriggerHaptics = decide (p.SDL_GameControllerRumbleTriggers 0 0 0 = 0)) := by
  refine ⟨?_, ?_, ?_, ?_, ?_⟩
  · intro h
    have h2 : g.hapticsSupported = false := h
    exact ⟨by simp [SDLGamepad.Rumble, h2], fun ops => (runOps_counts ops g).1 h2⟩
  · intro h
    have h2 : g.hapticsSupported = true := h
    simp [SDLGamepad.Rumble, h2]
  · intro h
    have h2 : g.triggerHapticsSupported = false := h
    exact ⟨by simp [SDLGamepad.RumbleTriggers, h2], fun ops => (runOps_counts ops g).2 h2⟩
  · intro h
    have h2 : g.triggerHapticsSupported = true := h
    simp [SDLGamepad.RumbleTriggers, h2]
  · intro p index g0 calls hnew
    obtain ⟨-, -, -, -, -, h6, h7, -⟩ := SDLGamepad.new_fields p index g0 calls hnew
    exact ⟨h6, h7⟩

/-- C7 on the session without rumble: `Rumble(65535, 65535, 1000)` issues no
provider call, and a sequence of polls and rumble requests issues no rumble
command. -/
theorem rumble_gated_by_capability_witness :
    plainPad.hasHaptics = false ∧
    plainPad.Rumble 65535 65535 1000 = (plainPad, []) ∧
    rumbleCount (runOps plainPad [Op.Rumble 65535 65535 1000, Op.pollState touchProvider,
      Op.Rumble 1 2 3]).2 = 0 :=
  ⟨rfl, ((rumble_gated_by_capability plainPad 65535 65535 1000).1 rfl).1,
    ((rumble_gated_by_capability plainPad 65535 65535 1000).1 rfl).2 _⟩

/-! ## Capability flags -/

/-- C9: after any sequence of `setSensor`, `setTouchpadSensing`, `pollState`,
`Rumble`, `RumbleTriggers` and `SetLED` calls, with whatever arguments and
provider answers, the seven capability accessors return what they returned
before the sequence. -/
theorem capabilities_fixed (g : SDLGamepad) (ops : List Op) :
    (runOps g ops).1.hasHaptics = g.hasHaptics ∧
    (runOps g ops).1.hasTriggerHaptics = g.hasTriggerHaptics ∧
    (runOps g ops).1.hasSensors = g.hasSensors ∧
    (runOps g ops).1.hasAccelerometer = g.hasAccelerometer ∧
    (runOps g ops).1.hasGyroscope = g.hasGyroscope ∧
    (runOps g ops).1.hasAllSensors = g.hasAllSensors ∧
    (runOps g ops).1.getTouchpadCount = g.getTouchpadCount := by
  obtain ⟨c1, c2, c3, c4, c5, c6, -⟩ := runOps_capabilities ops g
  simp only [SDLGamepad.hasHaptics, SDLGamepad.hasTriggerHaptics, SDLGamepad.hasSensors,
    SDLGamepad.hasAccelerometer, SDLGamepad.hasGyroscope, SDLGamepad.hasAllSensors,
    SDLGamepad.getTouchpadCount, c1, c2, c3, c4, c5, c6, and_self]

/-! ## Touchpads -/

/-- C6: on every reachable session, a poll after `setTouchpadSensing(false)`
leaves `touchpads` as it was, every finger record of every surface included,
and issues no touchpad query, whatever the provider would answer. -/
theorem disabled_touch_keeps_buffer (g : SDLGamepad) (hg : Reachable g) (p : Provider) :
    ((g.setTouchpadSensing false).1.pollState p).1.touchpads = g.touchpads ∧
    touchQueryCount ((g.setTouchpadSensing false).1.pollState p).2 = 0 := by
  obtain ⟨-, hq⟩ := hg.consistent
  have h1 : (g.setTouchpadSensing false).1.queryTouchpads = false := by
    unfold SDLGamepad.setTouchpadSensing
    split
    · rfl
    · rename_i hs
      cases hqt : g.queryTouchpads
      · rfl
      · exact absurd (hq hqt) hs
  have h2 : (g.setTouchpadSensing false).1.touchpads = g.touchpads := by
    unfold SDLGamepad.setTouchpadSensing
    split <;> rfl
  generalize (g.setTouchpadSensing false).1 = g1 at h1 h2
  obtain ⟨-, -, b3⟩ := SDLGamepad.pollButtonsAndAxesCalls_counts
  simp only [touchQueryCount] at b3 ⊢
  unfold SDLGamepad.pollState SDLGamepad.pollTouchpad
  dsimp only
  rw [h1]
  refine ⟨h2, ?_⟩
  cases g1.sensorEnabled <;> cases g1.accelActive <;> cases g1.gyroActive <;>
    simp [List.countP_append, List.countP_cons, SDLCall.isTouchQuery, b3]

/-- C6 on the session whose touchpads recorded three fingers down: after
`setTouchpadSensing(false)` a poll with a provider that reports every finger
lifted leaves the three records as they were. -/
theorem disabled_touch_keeps_buffer_witness :
    Reachable touchedPad ∧
    ((touchedPad.setTouchpadSensing false).1.pollState touchReleasedProvider).1.touchpads =
      [{ fingers := [{ state := 1, x := 1 / 2, y := 1 / 4, pressure := 1 }] },
       { fingers := [{ state := 1, x := 1 / 2, y := 1 / 4, pressure := 1 },
                     { state := 1, x := 1 / 2, y := 1 / 4, pressure := 1 }] }] :=
  ⟨⟨touchProvider, 0, _, _, [Op.setTouchpadSensing true, Op.pollState touchProvider], rfl, rfl⟩,
   (disabled_touch_keeps_buffer touchedPad
      ⟨touchProvider, 0, _, _, [Op.setTouchpadSensing true, Op.pollState touchProvider],
        rfl, rfl⟩
      touchReleasedProvider).1.trans rfl⟩

/-- The finger loop of the constructor succeeds when every finger-slot count
it reads is non-negative, and then sizes every surface to its count. -/
theorem SDLGamepad.resizeFingers_spec (p : Provider) (pads : List SDLGamepadTouchpad)
    (i : Nat)
    (h : ∀ j : Nat, j < pads.length →
      0 ≤ p.SDL_GameControllerGetNumTouchpadFingers ((i + j : Nat) : Int)) :
    ∃ pads2 calls, SDLGamepad.resizeFingers p i pads = some (pads2, calls) ∧
      pads2.length = pads.length ∧
      ∀ j : Nat, j < pads.length →
        (pads2[j]?).map (fun t => (t.fingers.length : Int)) =
          some (p.SDL_GameControllerGetNumTouchpadFingers ((i + j : Nat) : Int)) := by
  induction pads generalizing i with
  | nil => exact ⟨[], [], rfl, rfl, fun j hj => absurd hj (by simp)⟩
  | cons t rest ih =>
    have h0 : 0 ≤ p.SDL_GameControllerGetNumTouchpadFingers (i : Int) := by
      have := h 0 (by simp)
      simpa using this
    have hrest : ∀ j : Nat, j < rest.length →
        0 ≤ p.SDL_GameControllerGetNumTouchpadFingers (((i + 1) + j : Nat) : Int) := by
      intro j hj
      have := h (j + 1) (by simpa using hj)
      have e : i + (j + 1) = i + 1 + j := by omega
      rwa [e] at this
    obtain ⟨pads2, calls, he, hl, hs⟩ := ih (i + 1) hrest
    refine ⟨SDLGamepadTouchpad.mk (List.replicate
          (p.SDL_GameControllerGetNumTouchpadFingers (i : Int)).toNat
          ({} : SDLGamepadTouchpadFinger)) :: pads2,
      SDLCall.GameControllerGetNumTouchpadFingers i :: calls, ?_, ?_, ?_⟩
    · simp only [SDLGamepad.resizeFingers, SDLGamepad.resizeEmpty, not_lt.mpr h0, if_false, he]
    · simp [hl]
    · intro j hj
      cases j with
      | zero =>
        simp only [List.getElem?_cons_zero, Option.map_some', List.length_replicate,
          Nat.add_zero, Option.some.injEq]
        exact Int.toNat_of_nonneg h0
      | succ k =>
        have := hs k (by simpa using hj)
        have e : i + (k + 1) = i + 1 + k := by omega
        rw [e]
        simpa using this

/-! ## Construction -/

/-- C10: when the provider reports `n ≥ 0` touchpads and a finger-slot count
`f i ≥ 0` for every surface `i < n`, the constructor returns a session whose
`touchpads` has `n` entries, entry `i` having `f i` finger slots; with
`n = 2`, `f 0 = 1` and `f 1 = 2` the sizes are 2, 1 and 2. -/
theorem new_touchpad_sizes (p : Provider) (index : Int) :
    ((0 ≤ p.SDL_GameControllerGetNumTouchpads) →
      (∀ i : Int, 0 ≤ i → i < p.SDL_GameControllerGetNumTouchpads →
        0 ≤ p.SDL_GameControllerGetNumTouchpadFingers i) →
      ∃ g calls, SDLGamepad.new p index = some (g, calls) ∧
        (g.touchpads.length : Int) = p.SDL_GameControllerGetNumTouchpads ∧
        ∀ i : Nat, (i : Int) < p.SDL_GameControllerGetNumTouchpads →
          (g.touchpads[i]?).map (fun t => (t.fingers.length : Int)) =
            some (p.SDL_GameControllerGetNumTouchpadFingers i)) ∧
    (p.SDL_GameControllerGetNumTouchpads = 2 →
      p.SDL_GameControllerGetNumTouchpadFingers 0 = 1 →
      p.SDL_GameControllerGetNumTouchpadFingers 1 = 2 →
      ∃ g calls, SDLGamepad.new p index = some (g, calls) ∧
        g.touchpads.length = 2 ∧
        (g.touchpads[0]?).map (fun t => t.fingers.length) = some 1 ∧
        (g.touchpads[1]?).map (fun t => t.fingers.length) = some 2) := by
  have general : (0 ≤ p.SDL_GameControllerGetNumTouchpads) →
      (∀ i : Int, 0 ≤ i → i < p.SDL_GameControllerGetNumTouchpads →
        0 ≤ p.SDL_GameControllerGetNumTouchpadFingers i) →
      ∃ g calls, SDLGamepad.new p index = some (g, calls) ∧
        (g.touchpads.length : Int) = p.SDL_GameControllerGetNumTouchpads ∧
        ∀ i : Nat, (i : Int) < p.SDL_GameControllerGetNumTouchpads →
          (g.touchpads[i]?).map (fun t => (t.fingers.length : Int)) =
            some (p.SDL_GameControllerGetNumTouchpadFingers i) := by
    intro hn hf
    obtain ⟨-, -, -, -, -, htp, -, -, hc, -⟩ := SDLGamepad.probeCapabilities_fields p index
    by_cases h0 : p.SDL_GameControllerGetNumTouchpads = 0
    · refine ⟨(SDLGamepad.probeCapabilities p index).1, (SDLGamepad.probeCapabilities p index).2,
        ?_, ?_, ?_⟩
      · simp [SDLGamepad.new, hc, h0]
      · rw [htp, h0]; rfl
      · intro i hi
        rw [h0] at hi
        omega
    · have hpads : ∀ j : Nat,
          j < (List.replicate p.SDL_GameControllerGetNumTouchpads.toNat
            ({} : SDLGamepadTouchpad)).length →
          0 ≤ p.SDL_GameControllerGetNumTouchpadFingers ((0 + j : Nat) : Int) := by
        intro j hj
        rw [List.length_replicate] at hj
        apply hf
        · omega
        · omega
      obtain ⟨pads2, calls, he, hl, hs⟩ := SDLGamepad.resizeFingers_spec p _ 0 hpads
      refine ⟨{ (SDLGamepad.probeCapabilities p index).1 with
          touchpadSupported := true, touchpads := pads2 },
        (SDLGamepad.probeCapabilities p index).2 ++ calls, ?_, ?_, ?_⟩
      · simp only [SDLGamepad.new, hc, ne_eq, h0, not_false_eq_true, if_true,
          SDLGamepad.resizeEmpty, not_lt.mpr hn, if_false, he]
      · simp only [hl, List.length_replicate]
        exact Int.toNat_of_nonneg hn
      · intro i hi
        have := hs i (by rw [List.length_replicate]; omega)
        simpa using this
  refine ⟨general, ?_⟩
  intro h2 f0 f1
  obtain ⟨g, calls, hnew, hl, hs⟩ := general (by omega) (by
    intro i hi0 hi2
    have : i = 0 ∨ i = 1 := by omega
    rcases this with rfl | rfl
    · omega
    · omega)
  refine ⟨g, calls, hnew, ?_, ?_, ?_⟩
  · omega
  · have := hs 0 (by omega)
    simp only [Nat.cast_zero, f0] at this
    cases hg : g.touchpads[0]? with
    | none => simp [hg] at this
    | some t =>
      simp only [hg, Option.map_some', Option.some.injEq] at this ⊢
      omega
  · have := hs 1 (by omega)
    simp only [Nat.cast_one, f1] at this
    cases hg : g.touchpads[1]? with
    | none => simp [hg] at this
    | some t =>
      simp only [hg, Option.map_some', Option.some.injEq] at this ⊢
      omega

/-- The scenario of C10 on the touch provider: the constructor returns a
session with two touchpads, of one and of two finger slots. -/
theorem new_touchpad_sizes_witness :
    ∃ g calls, SDLGamepad.new touchProvider 0 = some (g, calls) ∧
      g.touchpads.length = 2 ∧
      (g.touchpads[0]?).map (fun t => t.fingers.length) = some 1 ∧
      (g.touchpads[1]?).map (fun t => t.fingers.length) = some 2 :=
  (new_touchpad_sizes touchProvider 0).2 rfl rfl rfl
